import Mathlib

/-!
Shallow embedding of the fallback valuation engine of the taksadana
repository (src/src/lib/valuation-service.ts). Numbers are modelled as
exact rationals; optional TypeScript fields are modelled as Option;
JavaScript truthiness tests on optional values are modelled explicitly.
-/

namespace Taksadana

/-- Input record, mirroring the PropertyData interface. -/
structure PropertyData where
  id : String
  address : String
  district : String
  city : String
  province : String
  landSize : ℚ
  buildingSize : Option ℚ
  assetType : String
  zoning : Option String
  landUse : Option String
  ownershipStatus : String
  certificateNumber : Option String
  yearBuilt : Option ℚ
  condition : Option String
  description : Option String
  features : List String
deriving Repr, DecidableEq

/-- Mirrors the MarketTrends interface. -/
structure MarketTrends where
  trend : String
  description : String
  factors : List String
deriving Repr, DecidableEq

/-- Mirrors the ComparableProperty interface. -/
structure ComparableProperty where
  address : String
  district : String
  city : String
  landSize : ℚ
  buildingSize : Option ℚ
  assetType : String
  transactionPrice : Option ℚ
  pricePerSqm : Option ℚ
  distance : Option ℚ
  similarityScore : ℚ
  dataSource : String
deriving Repr, DecidableEq

/-- Mirrors the RiskFactors interface. -/
structure RiskFactors where
  overallRisk : String
  factors : List String
  mitigation : List String
deriving Repr, DecidableEq

/-- Mirrors the StrategicValue interface. -/
structure StrategicValue where
  highestBestUse : String
  upsidePotential : String
  recommendations : List String
deriving Repr, DecidableEq

/-- Mirrors the ValuationResult interface. -/
structure ValuationResult where
  estimatedValue : ℚ
  valuePerSqm : ℚ
  confidenceScore : ℚ
  valuationMethod : String
  marketTrends : MarketTrends
  comparableAnalysis : List ComparableProperty
  riskFactors : RiskFactors
  strategicValue : StrategicValue
  notes : Option String
deriving Repr, DecidableEq

/-- JavaScript truthiness of an optional number: undefined and 0 are falsy. -/
def jsNumTruthy : Option ℚ → Bool
  | none => false
  | some x => x != 0

/-- JavaScript truthiness of an optional string: undefined and "" are falsy. -/
def jsStrTruthy : Option String → Bool
  | none => false
  | some s => s != ""

/-- The JavaScript or-else operator a || d on an optional number:
yields d when a is undefined or 0. -/
def jsOrNum (o : Option ℚ) (d : ℚ) : ℚ :=
  match o with
  | none => d
  | some x => if x = 0 then d else x

/-- The JavaScript or-else operator a || d on an optional string:
yields d when a is undefined or "". -/
def jsOrStr (o : Option String) (d : String) : String :=
  match o with
  | none => d
  | some s => if s = "" then d else s

/-- City-keyed lookup in the basePrices table of getBasePricePerSqm:
basePrices[assetType]?.[city].  The table records carry a literal
"default" key, so that key is reachable as a city name too. -/
def basePricesCity (assetType city : String) : Option ℚ :=
  if assetType = "RESIDENTIAL" then
    if city = "Jakarta" then some 15000000
    else if city = "Surabaya" then some 8000000
    else if city = "Bandung" then some 6000000
    else if city = "Medan" then some 5000000
    else if city = "default" then some 7000000
    else none
  else if assetType = "COMMERCIAL" then
    if city = "Jakarta" then some 25000000
    else if city = "Surabaya" then some 15000000
    else if city = "Bandung" then some 12000000
    else if city = "Medan" then some 10000000
    else if city = "default" then some 13000000
    else none
  else if assetType = "INDUSTRIAL" then
    if city = "Jakarta" then some 8000000
    else if city = "Surabaya" then some 5000000
    else if city = "Bandung" then some 4000000
    else if city = "Medan" then some 3500000
    else if city = "default" then some 4500000
    else none
  else if assetType = "MIXED_USE" then
    if city = "Jakarta" then some 20000000
    else if city = "Surabaya" then some 12000000
    else if city = "Bandung" then some 9000000
    else if city = "Medan" then some 7500000
    else if city = "default" then some 10000000
    else none
  else if assetType = "LAND_ONLY" then
    if city = "Jakarta" then some 10000000
    else if city = "Surabaya" then some 6000000
    else if city = "Bandung" then some 4500000
    else if city = "Medan" then some 4000000
    else if city = "default" then some 5000000
    else none
  else if assetType = "AGRICULTURAL" then
    if city = "Jakarta" then some 2000000
    else if city = "Surabaya" then some 1500000
    else if city = "Bandung" then some 1200000
    else if city = "Medan" then some 1000000
    else if city = "default" then some 1300000
    else none
  else none

/-- The default entry of the basePrices record for an asset type:
basePrices[assetType]?.default. -/
def basePricesDefault (assetType : String) : Option ℚ :=
  if assetType = "RESIDENTIAL" then some 7000000
  else if assetType = "COMMERCIAL" then some 13000000
  else if assetType = "INDUSTRIAL" then some 4500000
  else if assetType = "MIXED_USE" then some 10000000
  else if assetType = "LAND_ONLY" then some 5000000
  else if assetType = "AGRICULTURAL" then some 1300000
  else none

/-- Mirrors getBasePricePerSqm:
basePrices[assetType]?.[city] || basePrices[assetType]?.default || 7000000. -/
def getBasePricePerSqm (assetType city : String) : ℚ :=
  jsOrNum (basePricesCity assetType city)
    (jsOrNum (basePricesDefault assetType) 7000000)

/-- The premiumDistricts record of getDistrictMultiplier. -/
def premiumDistricts (city : String) : Option (List String) :=
  if city = "Jakarta" then
    some ["Menteng", "Kuningan", "Sudirman", "Thamrin", "Kelapa Gading", "Pondok Indah"]
  else if city = "Surabaya" then some ["Tunjungan", "Gubeng", "Darmo", "Manyar"]
  else if city = "Bandung" then some ["Dago", "Ciumbuleuit", "Setiabudi"]
  else if city = "Medan" then some ["Polonia", "Sisingamangaraja"]
  else none

/-- The standardDistricts record of getDistrictMultiplier. -/
def standardDistricts (city : String) : Option (List String) :=
  if city = "Jakarta" then some ["Kemayoran", "Pasar Minggu", "Cilandak", "Kebayoran"]
  else if city = "Surabaya" then some ["Wonokromo", "Sukomanunggal", "Tegalsari"]
  else if city = "Bandung" then some ["Antapani", "Arcamanik", "Bojongloa"]
  else if city = "Medan" then some ["Medan Area", "Medan Baru", "Medan Kota"]
  else none

/-- Mirrors getDistrictMultiplier: 1.5 for a premium district of the city,
1.2 for a standard district, 1.0 otherwise (including unknown cities,
where the optional-chaining lookup is undefined, hence falsy). -/
def getDistrictMultiplier (district city : String) : ℚ :=
  if ((premiumDistricts city).map (fun l => l.contains district)).getD false then
    1.5
  else if ((standardDistricts city).map (fun l => l.contains district)).getD false then
    1.2
  else
    1.0

/-- The multipliers record of getConditionMultiplier. -/
def conditionMultipliers (c : String) : Option ℚ :=
  if c = "EXCELLENT" then some 1.3
  else if c = "GOOD" then some 1.1
  else if c = "FAIR" then some 1.0
  else if c = "POOR" then some 0.8
  else if c = "NEEDS_RENOVATION" then some 0.7
  else none

/-- Mirrors getConditionMultiplier: multipliers[condition || "FAIR"] || 1.0. -/
def getConditionMultiplier (condition : Option String) : ℚ :=
  jsOrNum (conditionMultipliers (jsOrStr condition "FAIR")) 1.0

/-- The multipliers record of getOwnershipMultiplier. -/
def ownershipMultipliers (s : String) : Option ℚ :=
  if s = "CERTIFIED" then some 1.2
  else if s = "UNDER_PROCESS" then some 1.0
  else if s = "UNCERTIFIED" then some 0.8
  else if s = "DISPUTED" then some 0.5
  else none

/-- Mirrors getOwnershipMultiplier: multipliers[ownershipStatus] || 1.0. -/
def getOwnershipMultiplier (ownershipStatus : String) : ℚ :=
  jsOrNum (ownershipMultipliers ownershipStatus) 1.0

/-- Mirrors calculateConfidenceScore: base 0.5, fixed increments for
present data, clamped to at most 1.0 by Math.min. -/
def calculateConfidenceScore (p : PropertyData) : ℚ :=
  let score : ℚ := 0.5
  let score := if p.ownershipStatus = "CERTIFIED" then score + 0.2
    else if p.ownershipStatus = "UNDER_PROCESS" then score + 0.1
    else score
  let score := if jsStrTruthy p.certificateNumber then score + 0.1 else score
  let score := if jsStrTruthy p.zoning then score + 0.05 else score
  let score := if jsStrTruthy p.description then score + 0.05 else score
  let score := if jsNumTruthy p.buildingSize then score + 0.05 else score
  let score := if jsNumTruthy p.yearBuilt then score + 0.05 else score
  min 1.0 score

/-- Mirrors generateFallbackComparables: two synthetic comparables derived
from the subject property and the already-computed unit price. -/
def generateFallbackComparables (p : PropertyData) (pricePerSqm : ℚ) :
    List ComparableProperty :=
  [ { address := "Similar property in " ++ p.district
      district := p.district
      city := p.city
      landSize := p.landSize * 0.95
      buildingSize :=
        if jsNumTruthy p.buildingSize then p.buildingSize.map (fun b => b * 0.95)
        else none
      assetType := p.assetType
      transactionPrice := some (pricePerSqm * p.landSize * 0.95)
      pricePerSqm := some (pricePerSqm * 0.95)
      distance := some 500
      similarityScore := 0.85
      dataSource := "Market_Data" },
    { address := "Comparable property nearby " ++ p.district
      district := p.district
      city := p.city
      landSize := p.landSize * 1.05
      buildingSize :=
        if jsNumTruthy p.buildingSize then p.buildingSize.map (fun b => b * 1.05)
        else none
      assetType := p.assetType
      transactionPrice := some (pricePerSqm * p.landSize * 1.05)
      pricePerSqm := some (pricePerSqm * 1.05)
      distance := some 750
      similarityScore := 0.80
      dataSource := "Market_Data" } ]

/-- Mirrors assessOverallRisk. -/
def assessOverallRisk (p : PropertyData) : String :=
  if p.ownershipStatus = "DISPUTED" then "HIGH"
  else if p.ownershipStatus = "UNCERTIFIED" then "MEDIUM"
  else if p.condition = some "POOR" ∨ p.condition = some "NEEDS_RENOVATION" then "MEDIUM"
  else "LOW"

/-- Mirrors identifyRiskFactors: conditional pushes onto an initially
empty array, in source order. -/
def identifyRiskFactors (p : PropertyData) : List String :=
  let factors : List String := []
  let factors := if p.ownershipStatus ≠ "CERTIFIED" then
      factors ++ ["Ownership verification required"] else factors
  let factors := if ¬ jsStrTruthy p.certificateNumber then
      factors ++ ["Certificate number missing"] else factors
  let factors := if p.condition = some "POOR" ∨ p.condition = some "NEEDS_RENOVATION" then
      factors ++ ["Property requires significant maintenance"] else factors
  let factors := if ¬ jsStrTruthy p.zoning then
      factors ++ ["Zoning information not provided"] else factors
  factors

/-- Mirrors suggestRiskMitigation: conditional pushes for three triggers
(no zoning trigger here), then two unconditional general items. -/
def suggestRiskMitigation (p : PropertyData) : List String :=
  let mitigation : List String := []
  let mitigation := if p.ownershipStatus ≠ "CERTIFIED" then
      mitigation ++ ["Complete ownership verification process"] else mitigation
  let mitigation := if ¬ jsStrTruthy p.certificateNumber then
      mitigation ++ ["Obtain and verify certificate number"] else mitigation
  let mitigation := if p.condition = some "POOR" ∨ p.condition = some "NEEDS_RENOVATION" then
      mitigation ++ ["Budget for renovation and improvements"] else mitigation
  mitigation ++ ["Regular property maintenance", "Monitor market trends"]

/-- The highestBestUses record of determineHighestBestUse. -/
def highestBestUses (assetType : String) : Option String :=
  if assetType = "RESIDENTIAL" then some "Residential development or mixed-use conversion"
  else if assetType = "COMMERCIAL" then some "Commercial retail or office space"
  else if assetType = "INDUSTRIAL" then some "Industrial warehouse or manufacturing facility"
  else if assetType = "MIXED_USE" then some "Mixed-use commercial and residential development"
  else if assetType = "LAND_ONLY" then some "Development based on zoning regulations"
  else if assetType = "AGRICULTURAL" then some "Agricultural use or future development potential"
  else none

/-- Mirrors determineHighestBestUse. -/
def determineHighestBestUse (p : PropertyData) : String :=
  jsOrStr (highestBestUses p.assetType) "Current use optimization"

/-- Mirrors assessUpsidePotential. -/
def assessUpsidePotential (p : PropertyData) : String :=
  if p.ownershipStatus = "CERTIFIED" ∧ p.condition = some "EXCELLENT" then
    "High - strong location and good condition"
  else if p.ownershipStatus = "CERTIFIED" then
    "Moderate - good ownership status with improvement potential"
  else
    "Low - ownership and condition issues limit upside"

/-- Mirrors generateStrategicRecommendations. -/
def generateStrategicRecommendations (p : PropertyData) : List String :=
  let recommendations : List String :=
    ["Monitor local market trends and infrastructure developments"]
  let recommendations := if p.ownershipStatus ≠ "CERTIFIED" then
      recommendations ++ ["Prioritize ownership certification process"] else recommendations
  let recommendations := if p.condition = some "POOR" ∨ p.condition = some "NEEDS_RENOVATION" then
      recommendations ++ ["Consider renovation to improve property value"] else recommendations
  recommendations ++ ["Review zoning regulations for development opportunities",
    "Maintain detailed property documentation"]

/-- Mirrors generateFallbackValuation: the deterministic fallback path. -/
def generateFallbackValuation (p : PropertyData) : ValuationResult :=
  let basePricePerSqm := getBasePricePerSqm p.assetType p.city
  let districtMultiplier := getDistrictMultiplier p.district p.city
  let conditionMultiplier := getConditionMultiplier p.condition
  let ownershipMultiplier := getOwnershipMultiplier p.ownershipStatus
  let pricePerSqm := basePricePerSqm * districtMultiplier * conditionMultiplier * ownershipMultiplier
  let estimatedValue := pricePerSqm * p.landSize
  { estimatedValue := estimatedValue
    valuePerSqm := pricePerSqm
    confidenceScore := calculateConfidenceScore p
    valuationMethod := "COMPARABLE_SALES"
    marketTrends :=
      { trend := "STABLE"
        description := "Market conditions analyzed based on available data"
        factors := ["Location", "Property type", "Market conditions", "Infrastructure development"] }
    comparableAnalysis := generateFallbackComparables p pricePerSqm
    riskFactors :=
      { overallRisk := assessOverallRisk p
        factors := identifyRiskFactors p
        mitigation := suggestRiskMitigation p }
    strategicValue :=
      { highestBestUse := determineHighestBestUse p
        upsidePotential := assessUpsidePotential p
        recommendations := generateStrategicRecommendations p }
    notes := some "Valuation generated using fallback methodology due to AI service limitations" }

/-- Sample input: the residential Menteng property used in the spec's
worked example. -/
def mentengProperty : PropertyData :=
  { id := "prop-1"
    address := "Jl. Menteng Raya 1"
    district := "Menteng"
    city := "Jakarta"
    province := "DKI Jakarta"
    landSize := 5000
    buildingSize := none
    assetType := "RESIDENTIAL"
    zoning := none
    landUse := none
    ownershipStatus := "CERTIFIED"
    certificateNumber := none
    yearBuilt := none
    condition := some "GOOD"
    description := some "Corner lot"
    features := [] }

/-- Same property with an unrecognized district, fair condition and
uncertified ownership. -/
def unknownDistrictProperty : PropertyData :=
  { mentengProperty with
    district := "Unknown"
    condition := some "FAIR"
    ownershipStatus := "UNCERTIFIED" }

/-- A certified, documented property whose only triggering risk condition
is a missing zoning string. -/
def certifiedNoZoningProperty : PropertyData :=
  { mentengProperty with certificateNumber := some "SHM-123" }

/-- A property with a negative land size. -/
def negativeLandProperty : PropertyData :=
  { mentengProperty with landSize := -100 }

/-- Stated from the claim wording, not from the source, for comparison:
the number of triggering risk conditions among non-certified ownership,
missing certificate, poor or needs-renovation condition, and missing
zoning.  Per the claim, the mitigation list holds one sentence per
triggering condition plus two general mitigations. -/
def claimTriggerCount (p : PropertyData) : ℕ :=
  (if p.ownershipStatus ≠ "CERTIFIED" then 1 else 0)
  + (if ¬ jsStrTruthy p.certificateNumber then 1 else 0)
  + (if p.condition = some "POOR" ∨ p.condition = some "NEEDS_RENOVATION" then 1 else 0)
  + (if ¬ jsStrTruthy p.zoning then 1 else 0)

/-- C1: for every property record, the fallback valuation's unit price is
the base price times the district, condition and ownership multipliers,
and its estimated value is exactly that unit price times the land size. -/
theorem c1_fallback_value_formula (p : PropertyData) :
    (generateFallbackValuation p).valuePerSqm =
      getBasePricePerSqm p.assetType p.city * getDistrictMultiplier p.district p.city *
        getConditionMultiplier p.condition * getOwnershipMultiplier p.ownershipStatus
    ∧ (generateFallbackValuation p).estimatedValue =
      (generateFallbackValuation p).valuePerSqm * p.landSize :=
  ⟨rfl, rfl⟩

/-- C2: on the Menteng worked example the fallback valuation yields a unit
price of 15000000 × 1.5 × 1.1 × 1.2 = 29700000 and a total value of
148500000000; with unknown district, fair condition and uncertified
ownership it yields 15000000 × 1.0 × 1.0 × 0.8 = 12000000. -/
theorem c2_worked_examples :
    (generateFallbackValuation mentengProperty).valuePerSqm = 29700000
    ∧ (generateFallbackValuation mentengProperty).estimatedValue = 148500000000
    ∧ (generateFallbackValuation unknownDistrictProperty).valuePerSqm = 12000000 := by
  refine ⟨?_, ?_, ?_⟩ <;>
    norm_num +decide [generateFallbackValuation, getBasePricePerSqm, basePricesCity,
      basePricesDefault, jsOrNum, getDistrictMultiplier, premiumDistricts, standardDistricts,
      getConditionMultiplier, conditionMultipliers, jsOrStr, getOwnershipMultiplier,
      ownershipMultipliers, unknownDistrictProperty, mentengProperty]

/-- C4: the comparable generator always returns exactly two entries, the
first at 95 percent of the subject's land size, unit price and total
price with similarity 0.85 and distance 500, the second at 105 percent
with similarity 0.80 and distance 750. -/
theorem c4_two_comparables (p : PropertyData) (price : ℚ) :
    (generateFallbackComparables p price).length = 2
    ∧ ∃ c1 c2, generateFallbackComparables p price = [c1, c2]
      ∧ c1.landSize = p.landSize * 0.95
      ∧ c1.pricePerSqm = some (price * 0.95)
      ∧ c1.transactionPrice = some (price * p.landSize * 0.95)
      ∧ c1.similarityScore = 0.85
      ∧ c1.distance = some 500
      ∧ c2.landSize = p.landSize * 1.05
      ∧ c2.pricePerSqm = some (price * 1.05)
      ∧ c2.transactionPrice = some (price * p.landSize * 1.05)
      ∧ c2.similarityScore = 0.80
      ∧ c2.distance = some 750 :=
  ⟨rfl, _, _, rfl, rfl, rfl, rfl, rfl, rfl, rfl, rfl, rfl, rfl, rfl⟩

/-- C5: the overall risk level is HIGH for disputed ownership, else MEDIUM
for uncertified ownership or poor or needs-renovation condition, else
LOW; and the ownership multiplier for disputed status is 0.5. -/
theorem c5_overall_risk (p : PropertyData) :
    assessOverallRisk p =
      (if p.ownershipStatus = "DISPUTED" then "HIGH"
       else if p.ownershipStatus = "UNCERTIFIED" ∨ p.condition = some "POOR"
           ∨ p.condition = some "NEEDS_RENOVATION" then "MEDIUM"
       else "LOW")
    ∧ getOwnershipMultiplier "DISPUTED" = 0.5 := by
  refine ⟨?_, by norm_num +decide [getOwnershipMultiplier, ownershipMultipliers, jsOrNum]⟩
  unfold assessOverallRisk
  split_ifs <;> first | rfl | tauto

/-- C10: the confidence score treats falsy present values as absent: a
zero building size, a zero construction year, or an empty certificate
number, zoning or description string yields the same score as the field
being absent. -/
theorem c10_truthiness_absence (p : PropertyData) :
    calculateConfidenceScore { p with buildingSize := some 0 } =
      calculateConfidenceScore { p with buildingSize := none }
    ∧ calculateConfidenceScore { p with yearBuilt := some 0 } =
      calculateConfidenceScore { p with yearBuilt := none }
    ∧ calculateConfidenceScore { p with certificateNumber := some "" } =
      calculateConfidenceScore { p with certificateNumber := none }
    ∧ calculateConfidenceScore { p with zoning := some "" } =
      calculateConfidenceScore { p with zoning := none }
    ∧ calculateConfidenceScore { p with description := some "" } =
      calculateConfidenceScore { p with description := none } :=
  ⟨rfl, rfl, rfl, rfl, rfl⟩

/-- C3: the confidence score is 0.5 plus exactly the fixed increments for
certified (0.2) or under-process (0.1) ownership, certificate (0.1), and
zoning, description, building area and construction year (0.05 each),
clamped to at most 1.0, and it always lies between 0.5 and 1. -/
theorem ite_add_shift (c : Prop) [Decidable c] (x a : ℚ) :
    (if c then x + a else x) = x + (if c then a else 0) := by
  split_ifs <;> simp

theorem ite_ite_add_shift (c d : Prop) [Decidable c] [Decidable d] (x a b : ℚ) :
    (if c then x + a else if d then x + b else x) =
      x + (if c then a else if d then b else 0) := by
  split_ifs <;> simp

theorem ite_add_shift2 (c : Prop) [Decidable c] (x a y : ℚ) :
    (if c then x + a else x + y) = x + (if c then a else y) := by
  split_ifs <;> simp

theorem ite_nonneg_of_nonneg (c : Prop) [Decidable c] (a : ℚ) (h : 0 ≤ a) :
    0 ≤ (if c then a else 0) := by
  split_ifs <;> simp [h]

theorem c3_confidence_score (p : PropertyData) :
    calculateConfidenceScore p =
      min 1.0 (0.5
        + (if p.ownershipStatus = "CERTIFIED" then 0.2
           else if p.ownershipStatus = "UNDER_PROCESS" then 0.1 else 0)
        + (if jsStrTruthy p.certificateNumber then 0.1 else 0)
        + (if jsStrTruthy p.zoning then 0.05 else 0)
        + (if jsStrTruthy p.description then 0.05 else 0)
        + (if jsNumTruthy p.buildingSize then 0.05 else 0)
        + (if jsNumTruthy p.yearBuilt then 0.05 else 0))
    ∧ 0.5 ≤ calculateConfidenceScore p ∧ calculateConfidenceScore p ≤ 1 := by
  have hform : calculateConfidenceScore p =
      min 1.0 (0.5
        + (if p.ownershipStatus = "CERTIFIED" then 0.2
           else if p.ownershipStatus = "UNDER_PROCESS" then 0.1 else 0)
        + (if jsStrTruthy p.certificateNumber then 0.1 else 0)
        + (if jsStrTruthy p.zoning then 0.05 else 0)
        + (if jsStrTruthy p.description then 0.05 else 0)
        + (if jsNumTruthy p.buildingSize then 0.05 else 0)
        + (if jsNumTruthy p.yearBuilt then 0.05 else 0)) := by
    simp only [calculateConfidenceScore, ite_ite_add_shift, ite_add_shift2, ite_add_shift]
  refine ⟨hform, ?_, ?_⟩
  · rw [hform]
    have h1 : (0:ℚ) ≤ (if p.ownershipStatus = "CERTIFIED" then 0.2
        else if p.ownershipStatus = "UNDER_PROCESS" then 0.1 else 0) := by
      split_ifs <;> norm_num
    have h2 := ite_nonneg_of_nonneg (jsStrTruthy p.certificateNumber = true) (0.1 : ℚ) (by norm_num)
    have h3 := ite_nonneg_of_nonneg (jsStrTruthy p.zoning = true) (0.05 : ℚ) (by norm_num)
    have h4 := ite_nonneg_of_nonneg (jsStrTruthy p.description = true) (0.05 : ℚ) (by norm_num)
    have h5 := ite_nonneg_of_nonneg (jsNumTruthy p.buildingSize = true) (0.05 : ℚ) (by norm_num)
    have h6 := ite_nonneg_of_nonneg (jsNumTruthy p.yearBuilt = true) (0.05 : ℚ) (by norm_num)
    refine le_min (by norm_num) (by linarith)
  · rw [hform]
    exact le_trans (min_le_left _ _) (by norm_num)

/-- C6 counterexample: for a certified, documented property whose only
triggering condition is missing zoning, the mitigation list does not hold
one sentence per triggering condition plus the two general mitigations:
the code emits only the two general mitigations and no zoning sentence. -/
theorem c6_counterexample :
    suggestRiskMitigation certifiedNoZoningProperty =
      ["Regular property maintenance", "Monitor market trends"]
    ∧ (suggestRiskMitigation certifiedNoZoningProperty).length ≠
      claimTriggerCount certifiedNoZoningProperty + 2 := by
  constructor <;>
    norm_num +decide [suggestRiskMitigation, claimTriggerCount, jsStrTruthy,
      certifiedNoZoningProperty, mentengProperty]

/-- C6 amended: the risk factor list holds one fixed sentence per
triggering condition among non-certified ownership, missing certificate,
poor or needs-renovation condition, and missing zoning, in that order;
the mitigation list holds one fixed sentence per triggering condition
among the first three only (missing zoning adds no mitigation), followed
by the two always-present general mitigations. -/
theorem c6_risk_lists (p : PropertyData) :
    identifyRiskFactors p =
      (if p.ownershipStatus ≠ "CERTIFIED" then ["Ownership verification required"] else [])
      ++ (if ¬ jsStrTruthy p.certificateNumber then ["Certificate number missing"] else [])
      ++ (if p.condition = some "POOR" ∨ p.condition = some "NEEDS_RENOVATION" then
            ["Property requires significant maintenance"] else [])
      ++ (if ¬ jsStrTruthy p.zoning then ["Zoning information not provided"] else [])
    ∧ suggestRiskMitigation p =
      (if p.ownershipStatus ≠ "CERTIFIED" then ["Complete ownership verification process"] else [])
      ++ (if ¬ jsStrTruthy p.certificateNumber then ["Obtain and verify certificate number"] else [])
      ++ (if p.condition = some "POOR" ∨ p.condition = some "NEEDS_RENOVATION" then
            ["Budget for renovation and improvements"] else [])
      ++ ["Regular property maintenance", "Monitor market trends"] := by
  constructor <;>
    · simp only [identifyRiskFactors, suggestRiskMitigation]
      split_ifs <;> rfl

/-- C7: the base price resolver is total: an unrecognized asset category
yields the residential default 7000000 for any city, and a recognized
category with an unrecognized city yields that category's own default. -/
theorem c7_base_price_defaults (assetType city : String)
    (hcity : city ∉ (["Jakarta", "Surabaya", "Bandung", "Medan", "default"] : List String)) :
    (assetType ∉ (["RESIDENTIAL", "COMMERCIAL", "INDUSTRIAL", "MIXED_USE",
        "LAND_ONLY", "AGRICULTURAL"] : List String) →
      ∀ anyCity : String, getBasePricePerSqm assetType anyCity = 7000000)
    ∧ getBasePricePerSqm "RESIDENTIAL" city = 7000000
    ∧ getBasePricePerSqm "COMMERCIAL" city = 13000000
    ∧ getBasePricePerSqm "INDUSTRIAL" city = 4500000
    ∧ getBasePricePerSqm "MIXED_USE" city = 10000000
    ∧ getBasePricePerSqm "LAND_ONLY" city = 5000000
    ∧ getBasePricePerSqm "AGRICULTURAL" city = 1300000 := by
  simp only [List.mem_cons, List.not_mem_nil, or_false, not_or] at hcity
  obtain ⟨hc1, hc2, hc3, hc4, hc5⟩ := hcity
  refine ⟨?_, ?_, ?_, ?_, ?_, ?_, ?_⟩
  · intro h anyCity
    simp only [List.mem_cons, List.not_mem_nil, or_false, not_or] at h
    obtain ⟨h1, h2, h3, h4, h5, h6⟩ := h
    norm_num [getBasePricePerSqm, basePricesCity, basePricesDefault, jsOrNum,
      h1, h2, h3, h4, h5, h6]
  all_goals
    norm_num +decide [getBasePricePerSqm, basePricesCity, basePricesDefault, jsOrNum,
      hc1, hc2, hc3, hc4, hc5]

/-- C7 witness: concrete instances of the base price fallbacks. -/
theorem c7_base_price_defaults_witness :
    getBasePricePerSqm "UNKNOWN_TYPE" "Jakarta" = 7000000
    ∧ getBasePricePerSqm "COMMERCIAL" "Nowhere" = 13000000 :=
  ⟨(c7_base_price_defaults "UNKNOWN_TYPE" "Nowhere" (by decide)).1 (by decide) "Jakarta",
   (c7_base_price_defaults "UNKNOWN_TYPE" "Nowhere" (by decide)).2.2.1⟩


theorem jsOrNum_pos (o : Option ℚ) (d : ℚ) (ho : ∀ x, o = some x → 0 < x)
    (hd : 0 < d) : 0 < jsOrNum o d := by
  cases o with
  | none => exact hd
  | some x =>
      have hx := ho x rfl
      simp only [jsOrNum]
      split_ifs
      · exact hd
      · exact hx

set_option maxHeartbeats 2000000 in
theorem basePricesCity_pos (a c : String) (x : ℚ) (hx : basePricesCity a c = some x) :
    0 < x := by
  unfold basePricesCity at hx
  split_ifs at hx <;>
    first
      | exact Option.noConfusion hx
      | (rw [Option.some.injEq] at hx; subst hx; norm_num)

theorem basePricesDefault_pos (a : String) (x : ℚ) (hx : basePricesDefault a = some x) :
    0 < x := by
  unfold basePricesDefault at hx
  split_ifs at hx <;>
    first
      | exact Option.noConfusion hx
      | (rw [Option.some.injEq] at hx; subst hx; norm_num)

theorem conditionMultipliers_pos (c : String) (x : ℚ) (hx : conditionMultipliers c = some x) :
    0 < x := by
  unfold conditionMultipliers at hx
  split_ifs at hx <;>
    first
      | exact Option.noConfusion hx
      | (rw [Option.some.injEq] at hx; subst hx; norm_num)

theorem ownershipMultipliers_pos (s : String) (x : ℚ) (hx : ownershipMultipliers s = some x) :
    0 < x := by
  unfold ownershipMultipliers at hx
  split_ifs at hx <;>
    first
      | exact Option.noConfusion hx
      | (rw [Option.some.injEq] at hx; subst hx; norm_num)

theorem getBasePricePerSqm_pos (a c : String) : 0 < getBasePricePerSqm a c := by
  unfold getBasePricePerSqm
  exact jsOrNum_pos _ _ (basePricesCity_pos a c)
    (jsOrNum_pos _ _ (basePricesDefault_pos a) (by norm_num))

theorem getDistrictMultiplier_pos (d c : String) : 0 < getDistrictMultiplier d c := by
  unfold getDistrictMultiplier
  split_ifs <;> norm_num

theorem getConditionMultiplier_pos (c : Option String) : 0 < getConditionMultiplier c := by
  unfold getConditionMultiplier
  exact jsOrNum_pos _ _ (conditionMultipliers_pos _) (by norm_num)

theorem getOwnershipMultiplier_pos (s : String) : 0 < getOwnershipMultiplier s := by
  unfold getOwnershipMultiplier
  exact jsOrNum_pos _ _ (ownershipMultipliers_pos s) (by norm_num)

theorem valuePerSqm_pos (p : PropertyData) : 0 < (generateFallbackValuation p).valuePerSqm :=
  mul_pos (mul_pos (mul_pos (getBasePricePerSqm_pos p.assetType p.city)
    (getDistrictMultiplier_pos p.district p.city)) (getConditionMultiplier_pos p.condition))
    (getOwnershipMultiplier_pos p.ownershipStatus)

/-- C8: each synthetic comparable is internally inconsistent whenever the
subject's land size and unit price are nonzero: its transaction price is
subject unit price times subject land size times the perturbation factor,
while its own unit price times its own land size carries the factor
squared, so the two never agree. -/
theorem c8_comparables_inconsistent (p : PropertyData) (price : ℚ)
    (hL : p.landSize ≠ 0) (hP : price ≠ 0) :
    ∃ c1 c2, generateFallbackComparables p price = [c1, c2]
      ∧ c1.transactionPrice = some (price * p.landSize * 0.95)
      ∧ c1.pricePerSqm.getD 0 * c1.landSize = price * p.landSize * (0.95 * 0.95)
      ∧ c1.transactionPrice ≠ some (c1.pricePerSqm.getD 0 * c1.landSize)
      ∧ c2.transactionPrice = some (price * p.landSize * 1.05)
      ∧ c2.pricePerSqm.getD 0 * c2.landSize = price * p.landSize * (1.05 * 1.05)
      ∧ c2.transactionPrice ≠ some (c2.pricePerSqm.getD 0 * c2.landSize) := by
  have hPL : price * p.landSize ≠ 0 := mul_ne_zero hP hL
  refine ⟨_, _, rfl, rfl, ?_, ?_, rfl, ?_, ?_⟩
  · show price * 0.95 * (p.landSize * 0.95) = price * p.landSize * (0.95 * 0.95)
    ring
  · show some (price * p.landSize * 0.95) ≠ some (price * 0.95 * (p.landSize * 0.95))
    intro h
    rw [Option.some.injEq] at h
    exact hPL (by linear_combination (400 / 19 : ℚ) * h)
  · show price * 1.05 * (p.landSize * 1.05) = price * p.landSize * (1.05 * 1.05)
    ring
  · show some (price * p.landSize * 1.05) ≠ some (price * 1.05 * (p.landSize * 1.05))
    intro h
    rw [Option.some.injEq] at h
    exact hPL (by linear_combination (-400 / 21 : ℚ) * h)

/-- C8 witness: the inconsistency at the Menteng example with unit price
100. -/
theorem c8_comparables_inconsistent_witness :
    mentengProperty.landSize ≠ 0 ∧ (100 : ℚ) ≠ 0 ∧
    ∃ c1 c2, generateFallbackComparables mentengProperty 100 = [c1, c2]
      ∧ c1.transactionPrice = some (100 * mentengProperty.landSize * 0.95)
      ∧ c1.pricePerSqm.getD 0 * c1.landSize = 100 * mentengProperty.landSize * (0.95 * 0.95)
      ∧ c1.transactionPrice ≠ some (c1.pricePerSqm.getD 0 * c1.landSize)
      ∧ c2.transactionPrice = some (100 * mentengProperty.landSize * 1.05)
      ∧ c2.pricePerSqm.getD 0 * c2.landSize = 100 * mentengProperty.landSize * (1.05 * 1.05)
      ∧ c2.transactionPrice ≠ some (c2.pricePerSqm.getD 0 * c2.landSize) :=
  ⟨by norm_num [mentengProperty], by norm_num,
   c8_comparables_inconsistent mentengProperty 100 (by norm_num [mentengProperty]) (by norm_num)⟩

theorem comparables_neg (p : PropertyData) (price : ℚ) (hpr : 0 < price)
    (h : p.landSize < 0) :
    ∀ c ∈ generateFallbackComparables p price, c.landSize < 0 ∧ c.transactionPrice.getD 0 < 0 := by
  have hPL : price * p.landSize < 0 := mul_neg_of_pos_of_neg hpr h
  intro c hc
  simp only [generateFallbackComparables, List.mem_cons, List.not_mem_nil, or_false] at hc
  rcases hc with rfl | rfl
  · exact ⟨mul_neg_of_neg_of_pos h (by norm_num),
      by simpa using mul_neg_of_neg_of_pos hPL (by norm_num : (0:ℚ) < 0.95)⟩
  · exact ⟨mul_neg_of_neg_of_pos h (by norm_num),
      by simpa using mul_neg_of_neg_of_pos hPL (by norm_num : (0:ℚ) < 1.05)⟩

/-- C9: the fallback valuation validates nothing: with a negative land
size it still returns a fully populated record, whose estimated value is
the (always positive) unit price times the negative land size, hence
negative, and whose comparables have negative land sizes and negative
transaction prices. -/
theorem c9_no_input_validation (p : PropertyData) (h : p.landSize < 0) :
    (generateFallbackValuation p).estimatedValue =
      (generateFallbackValuation p).valuePerSqm * p.landSize
    ∧ 0 < (generateFallbackValuation p).valuePerSqm
    ∧ (generateFallbackValuation p).estimatedValue < 0
    ∧ ∀ c ∈ (generateFallbackValuation p).comparableAnalysis,
        c.landSize < 0 ∧ c.transactionPrice.getD 0 < 0 := by
  have hpos := valuePerSqm_pos p
  refine ⟨rfl, hpos, mul_neg_of_pos_of_neg hpos h, ?_⟩
  have hrw : (generateFallbackValuation p).comparableAnalysis =
      generateFallbackComparables p ((generateFallbackValuation p).valuePerSqm) := rfl
  rw [hrw]
  exact comparables_neg p _ hpos h

/-- C9 witness: the negative-land example. -/
theorem c9_no_input_validation_witness :
    negativeLandProperty.landSize < 0 ∧
    ((generateFallbackValuation negativeLandProperty).estimatedValue =
        (generateFallbackValuation negativeLandProperty).valuePerSqm *
          negativeLandProperty.landSize
      ∧ 0 < (generateFallbackValuation negativeLandProperty).valuePerSqm
      ∧ (generateFallbackValuation negativeLandProperty).estimatedValue < 0
      ∧ ∀ c ∈ (generateFallbackValuation negativeLandProperty).comparableAnalysis,
          c.landSize < 0 ∧ c.transactionPrice.getD 0 < 0) :=
  ⟨by norm_num [negativeLandProperty, mentengProperty],
   c9_no_input_validation negativeLandProperty
     (by norm_num [negativeLandProperty, mentengProperty])⟩

end Taksadana
